import Mathlib

/-!
Verification development for the wave-project file watching and caching core.

The Python sources are embedded shallowly:

* `src/filedb/file_cache.py` — `FileContextMSD` and `FileCacheLinkedList`
  are modelled as a heap of nodes (`Cache.nodes`, node id = list index)
  whose `prev` and `next` fields are `Option Nat`.  A Python reference is
  `some id`; Python `None` is `none`; dereferencing `none` raises
  `AttributeError`, exactly as attribute access on `None` does in Python.
  Every loop takes explicit fuel; a run that exhausts its fuel yields the
  distinguished outcome `PyResult.diverge`, so nontermination of a loop is
  provable as "diverge for every fuel".
* `src/filedb/file_manager.py` — `FileCacheManager` event processing.
* `src/watcher/bricks.py` — `SkipRepeatsQueue` and `ObservedWatch`.
* `src/watcher/observers.py` — `BaseObserver.schedule`.

Python values of dynamic type that flow into `compare_key` are modelled by
`PyVal` (a datetime or a str), keeping the runtime `isinstance` check of
`FileContextMSD.compare_key` observable.  datetimes are modelled as seconds
since the epoch (an `Int`); the repository only ever builds them through
`datetime.strptime(s, "%Y%m%d_%H%M%S")`, which has second granularity.
Paths are modelled with the separator "/" (accepted by ntpath as altsep).
-/

namespace WaveSpec

/-- Python exceptions that the embedded code can raise. -/
inductive PyErr : Type
  | typeError (msg : String)
  | valueError (msg : String)
  | attributeError (msg : String)
  deriving Repr, DecidableEq

/-- Outcome of running a piece of embedded Python: a value, a raised
exception, or fuel exhaustion (the loop did not finish within the fuel). -/
inductive PyResult (α : Type) : Type
  | ok (a : α)
  | raise (e : PyErr)
  | diverge
  deriving Repr, DecidableEq

/-- Bind for `PyResult`, propagating exceptions and divergence. -/
def PyResult.bind {α β : Type} : PyResult α → (α → PyResult β) → PyResult β
  | .ok a, f => f a
  | .raise e, _ => .raise e
  | .diverge, _ => .diverge

instance : Monad PyResult where
  pure := PyResult.ok
  bind := PyResult.bind

/-- A dynamically typed Python value reaching `compare_key`: either a
`datetime` (seconds since epoch) or a `str`. -/
inductive PyVal : Type
  | dt (t : Int)
  | str (s : String)
  deriving Repr, DecidableEq

/-! ## Calendar arithmetic (models `datetime` / `strftime` / `strptime`) -/

/-- Days from civil date (proleptic Gregorian), the standard algorithm;
models the day count inside `datetime`.  Fields are assumed in the ranges
`datetime` enforces (1 ≤ month ≤ 12 etc.), under which every division below
acts on nonnegative numbers. -/
def daysFromCivil (y m d : Int) : Int :=
  let y1 := if m ≤ 2 then y - 1 else y
  let era := (if 0 ≤ y1 then y1 else y1 - 399) / 400
  let yoe := y1 - era * 400
  let mp := if 2 < m then m - 3 else m + 9
  let doy := (153 * mp + 2) / 5 + d - 1
  let doe := yoe * 365 + yoe / 4 - yoe / 100 + doy
  era * 146097 + doe - 719468

/-- Inverse of `daysFromCivil`: civil date (y, m, d) of an epoch day count. -/
def civilFromDays (z : Int) : Int × Int × Int :=
  let z1 := z + 719468
  let era := (if 0 ≤ z1 then z1 else z1 - 146096) / 146097
  let doe := z1 - era * 146097
  let yoe := (doe - doe / 1460 + doe / 36524 - doe / 146096) / 365
  let y := yoe + era * 400
  let doy := doe - (365 * yoe + yoe / 4 - yoe / 100)
  let mp := (5 * doy + 2) / 153
  let d := doy - (153 * mp + 2) / 5 + 1
  let m := if mp < 10 then mp + 3 else mp - 9
  (if m ≤ 2 then y + 1 else y, m, d)

/-- Is `y` a leap year (proleptic Gregorian, as `datetime` uses)? -/
def isLeapYear (y : Int) : Bool :=
  (y % 4 = 0 ∧ y % 100 ≠ 0) ∨ y % 400 = 0

/-- Number of days in month `m` of year `y`. -/
def daysInMonth (y m : Int) : Int :=
  if m = 2 then (if isLeapYear y then 29 else 28)
  else if m = 4 ∨ m = 6 ∨ m = 9 ∨ m = 11 then 30
  else 31

/-- Decimal rendering of a nonnegative `Int`, zero padded to `width`
characters; models the zero padded fields of `strftime`. -/
def padNum (width : Nat) (n : Int) : String :=
  let s := toString n.toNat
  String.mk (List.replicate (width - s.length) '0') ++ s

/-- Floor division of an epoch-second count by a positive unit. -/
def floorDivInt (a b : Int) : Int := Int.fdiv a b

/-- Floor remainder matching `floorDivInt`. -/
def floorModInt (a b : Int) : Int := Int.fmod a b

/-- Models `timestamp.strftime('%Y-%m-%d %H:%M:%S')` on a datetime given as
seconds since the epoch (the format used by `FileContextMSD.key`). -/
def formatKey (t : Int) : String :=
  let days := floorDivInt t 86400
  let secs := floorModInt t 86400
  let ymd := civilFromDays days
  let h := floorDivInt secs 3600
  let mi := floorDivInt (floorModInt secs 3600) 60
  let s := floorModInt secs 60
  padNum 4 ymd.1 ++ "-" ++ padNum 2 ymd.2.1 ++ "-" ++ padNum 2 ymd.2.2 ++ " " ++
    padNum 2 h ++ ":" ++ padNum 2 mi ++ ":" ++ padNum 2 s

/-- Are all characters of the list decimal digits? -/
def allDigits (cs : List Char) : Bool := cs.all Char.isDigit

/-- Numeric value of a list of decimal digits. -/
def digitsToInt (cs : List Char) : Int :=
  (cs.foldl (fun acc c => acc * 10 + (c.toNat - '0'.toNat)) 0 : Nat)

/-- Models `datetime.strptime(s, "%Y%m%d_%H%M%S")` on the canonical
fixed-width form the filenames use (4 digit year, 2 digit month, day, hour,
minute and second, with an underscore between date and time); returns the
parsed datetime as seconds since the epoch, or `none` when parsing fails
(in Python: `ValueError`, caught by `verify_file`). -/
def strptimeYmdHms (s : String) : Option Int :=
  let cs := s.toList
  if cs.length = 15 then
    let yd := cs.take 4
    let mo := (cs.drop 4).take 2
    let dd := (cs.drop 6).take 2
    let us := cs.get? 8
    let hh := (cs.drop 9).take 2
    let mi := (cs.drop 11).take 2
    let ss := (cs.drop 13).take 2
    if us = some '_' ∧ allDigits (yd ++ mo ++ dd ++ hh ++ mi ++ ss) then
      let y := digitsToInt yd
      let m := digitsToInt mo
      let d := digitsToInt dd
      let h := digitsToInt hh
      let mn := digitsToInt mi
      let sec := digitsToInt ss
      if 1 ≤ y ∧ y ≤ 9999 ∧ 1 ≤ m ∧ m ≤ 12 ∧ 1 ≤ d ∧ d ≤ daysInMonth y m ∧
          h ≤ 23 ∧ mn ≤ 59 ∧ sec ≤ 59 then
        some (daysFromCivil y m d * 86400 + h * 3600 + mn * 60 + sec)
      else none
    else none
  else none

/-! ## Path helpers (models the `os.path` calls, separator "/") -/

/-- ASCII lowercasing of a string; models `str.lower` on the ASCII
filenames and paths the repository handles. -/
def strLower (s : String) : String := String.mk (s.toList.map Char.toLower)

/-- Index just past the last occurrence of `c`, or `0` if absent
(so it can serve directly as the basename start); helper for the
`os.path.split` and `os.path.splitext` models. -/
def idxPastLast (cs : List Char) (c : Char) : Nat :=
  cs.foldl (fun st p => (st.1 + 1, if p = c then st.1 + 1 else st.2)) (0, 0) |>.2

/-- Models `os.path.split(p)[-1]` (the basename) for "/"-separated paths. -/
def basenameOf (p : String) : String :=
  String.mk (p.toList.drop (idxPastLast p.toList '/'))

/-- Models `os.path.splitext(p)` for "/"-separated paths, following
CPython: the extension starts at the last dot of the basename, unless every
character of the basename before that dot is itself a dot. -/
def splitextOf (p : String) : String × String :=
  let cs := p.toList
  let sepIdx := idxPastLast cs '/'
  let extPast := idxPastLast cs '.'
  if extPast > sepIdx ∧ ((cs.drop sepIdx).take (extPast - 1 - sepIdx)).any (· ≠ '.') then
    (String.mk (cs.take (extPast - 1)), String.mk (cs.drop (extPast - 1)))
  else
    (p, "")

/-- Models `os.path.isabs` (ntpath) for "/"-separated paths: rooted, or a
drive followed by a root. -/
def isabs (p : String) : Bool :=
  match p.toList with
  | '/' :: _ => true
  | _ :: ':' :: '/' :: _ => true
  | _ => false

/-- Does the first list occur at the start of the second? (Structural
helper used instead of the opaque builtin string primitives.) -/
def listIsStartOf : List Char → List Char → Bool
  | [], _ => true
  | _ :: _, [] => false
  | a :: as, b :: bs => a = b && listIsStartOf as bs

/-- Does `s` begin with `pre`? -/
def strBeginsWith (s pre : String) : Bool := listIsStartOf pre.toList s.toList

/-- Models `os.path.join(root, name)` with "/" as the separator. -/
def joinPath (root name : String) : String :=
  if root.toList.getLast? = some '/' then root ++ name else root ++ "/" ++ name

/-- Split a list at the first occurrence of `sep`, if any. -/
def splitAtFirst (sep : Char) : List Char → Option (List Char × List Char)
  | [] => none
  | c :: rest =>
    if c = sep then some ([], rest)
    else match splitAtFirst sep rest with
      | some (l, r) => some (c :: l, r)
      | none => none

/-- Models `s.split("_", maxsplit=2)`. -/
def splitUnderscoreMax2 (s : String) : List String :=
  match splitAtFirst '_' s.toList with
  | none => [s]
  | some (a, rest) =>
    match splitAtFirst '_' rest with
    | none => [String.mk a, String.mk rest]
    | some (b, rest2) => [String.mk a, String.mk b, String.mk rest2]

/-- Models `s.split("+")[0]`: the part before the first plus sign. -/
def beforePlus (s : String) : String :=
  match splitAtFirst '+' s.toList with
  | none => s
  | some (a, _) => String.mk a

/-! ## Domain record validator (models `FileContextMSD`) -/

/-- Models `FileContextMSD.verify_file` on a path: checks the extension is
"msd" (case insensitively, after removing the dots of the extension), takes
the basename without extension, strips anything from a "+" on, splits on
"_" with maxsplit 2, and parses the third factor with
`strptime("%Y%m%d_%H%M%S")` adding an 8 hour offset.  Returns the final
`_time_stamp` (seconds since epoch) and `section`, or `none` when the check
fails (Python: `verify_file` returns `False`). -/
def verifyFileMSD (p : String) : Option (Int × String) :=
  if p = "" then none
  else
    let ext := strLower (String.mk ((splitextOf p).2.toList.filter (· ≠ '.')))
    if ext ≠ "msd" then none
    else
      let filename := basenameOf p
      if filename = "" then none
      else
        let filenameNoext := (splitextOf filename).1
        if filenameNoext = "" then none
        else
          let base := if filenameNoext.toList.contains '+'
            then beforePlus filenameNoext else filenameNoext
          let factors := splitUnderscoreMax2 base
          if factors.length < 3 then none
          else
            match strptimeYmdHms (factors.getD 2 "") with
            | some t => some (t + 8 * 3600, factors.getD 1 "")
            | none => none

/-- The mutable state of one `FileContext` object (a node of the doubly
linked list): `absolute_path`, `_time_stamp`, `section`, and the `prev` and
`next` references (`none` is Python `None`). -/
structure FC where
  absPath : String
  ts : Option Int
  sect : Option String
  prev : Option Nat
  next : Option Nat
  deriving Repr, DecidableEq, Inhabited

/-- Models `FileContextMSD.new_file_context`: build a context for the path
and return `none` when `verify_file` fails. -/
def newFileContext (p : String) : Option FC :=
  match verifyFileMSD p with
  | some (t, sec) => some { absPath := p, ts := some t, sect := some sec, prev := none, next := none }
  | none => none

/-! ## The cache (models `FileCacheLinkedList`)

Node objects live in the heap `nodes`; a node id is an index into it, a
Python reference is `some id` and Python `None` is `none`.  `kvStore`
models the `_kv_store` dict (insertion ordered association list with
distinct keys).  The reentrant lock serialises every operation in the
source, so the embedding is the sequential semantics. -/

structure Cache where
  nodes : List FC
  headId : Nat
  tailId : Nat
  kvStore : List (PyVal × Nat)
  deriving Repr, DecidableEq

/-- Read the node object behind id `i`. -/
def Cache.getFC (c : Cache) (i : Nat) : FC := c.nodes.getD i default

/-- Overwrite the node object behind id `i`. -/
def Cache.setFC (c : Cache) (i : Nat) (f : FC) : Cache :=
  { c with nodes := c.nodes.set i f }

/-- Update the node object behind id `i` in place. -/
def Cache.updFC (c : Cache) (i : Nat) (g : FC → FC) : Cache :=
  c.setFC i (g (c.getFC i))

/-- The freshly constructed cache: only the two sentinel (dummy) nodes,
`head.next` and `tail.prev` wired to each other, empty `_kv_store`.
Models `FileCacheLinkedList.__init__`. -/
def mkCache : Cache :=
  { nodes := [ { absPath := "", ts := none, sect := none, prev := none, next := some 1 },
               { absPath := "", ts := none, sect := none, prev := some 0, next := none } ],
    headId := 0,
    tailId := 1,
    kvStore := [] }

/-- Models the `FileContextMSD.key` property: `_time_stamp.strftime(...)`,
a `str`; on a context whose `_time_stamp` is `None` the attribute access
raises. -/
def fcKey (f : FC) : PyResult PyVal :=
  match f.ts with
  | some t => .ok (.str (formatKey t))
  | none => .raise (.attributeError "NoneType object has no attribute strftime")

/-- Models `FileContextMSD.compare_key`: raises `TypeError` unless the
argument is a `datetime`, then returns the signed difference in seconds. -/
def compareKeyMSD (f : FC) (otherKey : PyVal) : PyResult Int :=
  match otherKey with
  | .str _ => .raise (.typeError "the comparison type must be datetime")
  | .dt t =>
    match f.ts with
    | some ts => .ok (ts - t)
    | none => .raise (.typeError "unsupported operand type for datetime subtraction")

/-- Lookup in the `_kv_store` dict. -/
def kvFind : List (PyVal × Nat) → PyVal → Option Nat
  | [], _ => none
  | (k, v) :: rest, key => if k = key then some v else kvFind rest key

/-- Models `_kv_store_push_item`: store `key -> node` only when the key is
absent. -/
def kvPush (c : Cache) (i : Nat) : PyResult Cache :=
  match fcKey (c.getFC i) with
  | .ok k =>
    if (kvFind c.kvStore k).isSome then .ok c
    else .ok { c with kvStore := c.kvStore ++ [(k, i)] }
  | .raise e => .raise e
  | .diverge => .diverge

/-- Models `_kv_store_pop_item`: delete the entry for the node key when
present (a no-op otherwise). -/
def kvPop (c : Cache) (i : Nat) : PyResult Cache :=
  match fcKey (c.getFC i) with
  | .ok k => .ok { c with kvStore := c.kvStore.filter (fun e => e.1 ≠ k) }
  | .raise e => .raise e
  | .diverge => .diverge

/-- The scan loop of `insert`: starting from `prev = head` and
`ptr = head.next`, walk while `ptr is not tail` and
`file_context.compare_key(ptr.key) >= 0`; returns the final
`(prev, ptr)` pair.  The loop mutates nothing, so the cache is passed
unchanged. -/
def insertLoop (c : Cache) (fcId : Nat) : Nat → Nat → Option Nat → PyResult (Nat × Option Nat)
  | 0, _, _ => .diverge
  | fuel + 1, prev, ptr =>
    if ptr = some c.tailId then .ok (prev, ptr)
    else
      match ptr with
      | none => .raise (.attributeError "NoneType object has no attribute key")
      | some p =>
        match fcKey (c.getFC p) with
        | .raise e => .raise e
        | .diverge => .diverge
        | .ok k =>
          match compareKeyMSD (c.getFC fcId) k with
          | .raise e => .raise e
          | .diverge => .diverge
          | .ok v =>
            if v < 0 then .ok (prev, ptr)
            else insertLoop c fcId fuel p (c.getFC p).next

/-- Models `FileCacheLinkedList.insert` on a node object already allocated
in the heap (`none` models passing Python `None`). -/
def insert (fuel : Nat) (c : Cache) (fcId? : Option Nat) : PyResult Cache :=
  match fcId? with
  | none => .raise (.valueError "FileCache.insert: file_context should not be None.")
  | some fcId =>
    match insertLoop c fcId fuel c.headId (c.getFC c.headId).next with
    | .raise e => .raise e
    | .diverge => .diverge
    | .ok (prev, ptr) =>
      let c1 := c.updFC fcId (fun f => { f with prev := some prev, next := ptr })
      let c2 := c1.updFC prev (fun f => { f with next := some fcId })
      match ptr with
      | none => .raise (.attributeError "NoneType object has no attribute prev")
      | some q =>
        let c3 := c2.updFC q (fun f => { f with prev := some fcId })
        kvPush c3 fcId

/-- Allocate a fresh context object in the heap and `insert` it; models the
call pattern `insert(new_file_context(path))` with a non-None context. -/
def insertContext (fuel : Nat) (c : Cache) (fcd : FC) : PyResult Cache :=
  insert fuel { c with nodes := c.nodes ++ [fcd] } (some c.nodes.length)

/-- Models `FileCacheLinkedList.delete`: unlink the node (raising
`AttributeError` if a neighbour reference is `None`, as Python attribute
access on `None` does), null its own references, then pop its key from the
`_kv_store`. -/
def delete (c : Cache) (fcId? : Option Nat) : PyResult Cache :=
  match fcId? with
  | none => .raise (.valueError "FileCache.insert: file_context should not be None.")
  | some i =>
    match (c.getFC i).prev with
    | none => .raise (.attributeError "NoneType object has no attribute next")
    | some p =>
      let c1 := c.updFC p (fun g => { g with next := (c.getFC i).next })
      match (c1.getFC i).next with
      | none => .raise (.attributeError "NoneType object has no attribute prev")
      | some q =>
        let c2 := c1.updFC q (fun g => { g with prev := (c1.getFC i).prev })
        let c3 := (c2.updFC i (fun g => { g with next := none })).updFC i
          (fun g => { g with prev := none })
        kvPop c3 i

/-- The loop of `clear_cache`: `ptr` starts at `head.next`; while
`ptr is not tail`, delete the node `ptr` points at and then advance to
`ptr.next` — read after the delete has already nulled it. -/
def clearLoop : Nat → Cache → Option Nat → PyResult Cache
  | 0, _, _ => .diverge
  | fuel + 1, c, ptr =>
    if ptr = some c.tailId then .ok c
    else
      match ptr, delete c ptr with
      | _, .raise e => .raise e
      | _, .diverge => .diverge
      | some i, .ok c1 => clearLoop fuel c1 (c1.getFC i).next
      | none, .ok _ => .raise (.valueError "FileCache.insert: file_context should not be None.")

/-- Models `FileCacheLinkedList.clear_cache`. -/
def clearCache (fuel : Nat) (c : Cache) : PyResult Cache :=
  clearLoop fuel c (c.getFC c.headId).next

/-- The loop of `replace`: `ptr` starts at `head.next`; while
`ptr is not tail`, if `ptr == old` (reference equality: these classes do
not override equality) run the splice body; the loop body contains no
`break` and never advances `ptr`. -/
def replaceLoop (oldId newId : Nat) : Nat → Cache → Option Nat → PyResult Cache
  | 0, _, _ => .diverge
  | fuel + 1, c, ptr =>
    if ptr = some c.tailId then .ok c
    else
      match ptr with
      | none => replaceLoop oldId newId fuel c none
      | some i =>
        if i = oldId then
          match kvPop c oldId with
          | .raise e => .raise e
          | .diverge => .diverge
          | .ok c1 =>
            match kvPush c1 newId with
            | .raise e => .raise e
            | .diverge => .diverge
            | .ok c2 =>
              let c3 := c2.updFC newId (fun g => { g with prev := (c2.getFC i).prev })
              let c4 := c3.updFC newId (fun g => { g with next := (c3.getFC i).next })
              match (c4.getFC i).prev with
              | none => .raise (.attributeError "NoneType object has no attribute next")
              | some p =>
                let c5 := c4.updFC p (fun g => { g with next := some newId })
                match (c5.getFC i).next with
                | none => .raise (.attributeError "NoneType object has no attribute prev")
                | some q =>
                  let c6 := c5.updFC q (fun g => { g with prev := some newId })
                  let c7 := (c6.updFC i (fun g => { g with next := none })).updFC i
                    (fun g => { g with prev := none })
                  replaceLoop oldId newId fuel c7 (some i)
        else replaceLoop oldId newId fuel c (some i)

/-- Models `FileCacheLinkedList.replace` (`none` models a Python `None`
argument). -/
def replace (fuel : Nat) (c : Cache) (oldId? newId? : Option Nat) : PyResult Cache :=
  match oldId?, newId? with
  | none, _ => .raise (.valueError "FileCache.replace: args should not be None.")
  | _, none => .raise (.valueError "FileCache.replace: args should not be None.")
  | some oldId, some newId => replaceLoop oldId newId fuel c (c.getFC c.headId).next

/-! ## Pattern matching and `query_by_path`

The only patterns the repository builds are `re.compile("^" + path)` and
whatever pattern a caller supplies; `RePattern` models the compiled form of
an (optionally caret anchored) literal pattern together with the flags it
was compiled with.  `Pattern.match(string, pos)` anchors the match at
`pos`; a leading caret is an assertion that only holds at the true start of
the string. -/

structure RePattern where
  anchored : Bool
  lit : String
  ignoreCase : Bool
  deriving Repr, DecidableEq

/-- Models `Pattern.match(s, pos) is not None` for a compiled
(anchored) literal pattern: the literal must start exactly at `pos`
(folded to lower case when the pattern was compiled with `IGNORECASE`),
and a caret additionally requires `pos = 0`. -/
def RePattern.matchAt (p : RePattern) (s : String) (pos : Nat) : Bool :=
  let canon := fun t => if p.ignoreCase then strLower t else t
  (!p.anchored || pos == 0) && decide (pos ≤ s.toList.length) &&
    listIsStartOf (canon p.lit).toList ((canon s).toList.drop pos)

/-- The integer value of the `re.IGNORECASE` flag (`RegexFlag.IGNORECASE
== 2`), which `query_by_path` passes to `Pattern.match` — in the `pos`
argument position. -/
def RE_IGNORECASE : Nat := 2

/-- The scan loop of `query_by_path`: walk from `head.next` while
`ptr is not tail`, collecting every node whose absolute path matches
(pattern mode calls `re_pattern.match(ptr.absolute_path, re.IGNORECASE)`;
exact mode compares paths for equality). -/
def queryLoop (c : Cache) (fp : String) (regex : Bool) (pat? : Option RePattern) :
    Nat → List Nat → Option Nat → PyResult (List Nat)
  | 0, _, _ => .diverge
  | fuel + 1, acc, ptr =>
    if ptr = some c.tailId then .ok acc
    else
      match ptr with
      | none => .raise (.attributeError "NoneType object has no attribute absolute_path")
      | some i =>
        let f := c.getFC i
        let acc1 :=
          if regex then
            match pat? with
            | some pat => if pat.matchAt f.absPath RE_IGNORECASE then acc ++ [i] else acc
            | none => acc
          else if f.absPath = fp then acc ++ [i] else acc
        queryLoop c fp regex pat? fuel acc1 f.next

/-- Models `FileCacheLinkedList.query_by_path(file_path, regex,
re_pattern)`; `file_path` defaults to `None`, on which `os.path.isabs`
raises `TypeError` before anything else happens. -/
def queryByPath (fuel : Nat) (c : Cache) (filePath : Option String) (regex : Bool)
    (pat? : Option RePattern) : PyResult (List Nat) :=
  match filePath with
  | none => .raise (.typeError "expected str, bytes or os.PathLike object, not NoneType")
  | some fp =>
    if !isabs fp then .raise (.valueError "FileCache.query_by_path: arg file_path is not absolute path.")
    else if regex ∧ pat? = none then
      .raise (.valueError "FileCache.query_by_path: arg re_pattern should not be None.")
    else queryLoop c fp regex pat? fuel [] (c.getFC c.headId).next

/-- Walk the linked sequence from the head sentinel towards the tail
sentinel following `next` references, collecting the node ids in order;
this is the traversal the spec describes for reading the cache contents. -/
def traverseLoop (c : Cache) : Nat → List Nat → Option Nat → PyResult (List Nat)
  | 0, _, _ => .diverge
  | fuel + 1, acc, ptr =>
    if ptr = some c.tailId then .ok acc
    else
      match ptr with
      | none => .raise (.attributeError "NoneType object has no attribute next")
      | some i => traverseLoop c fuel (acc ++ [i]) (c.getFC i).next

/-- The record sequence of the cache, head sentinel to tail sentinel. -/
def traverse (fuel : Nat) (c : Cache) : PyResult (List Nat) :=
  traverseLoop c fuel [] (c.getFC c.headId).next

/-! ## `init_cache` (models the `os.walk` bulk population) -/

/-- One directory of the walk: build `new_file_context(join(root, name))`
for every file name and `insert` the result — which is `None` for a file
whose name does not validate. -/
def initCacheFiles (fuel : Nat) (root : String) : List String → Cache → PyResult Cache
  | [], c => .ok c
  | name :: rest, c =>
    let step :=
      match newFileContext (joinPath root name) with
      | some fcd => insertContext fuel c fcd
      | none => insert fuel c none
    match step with
    | .ok c1 => initCacheFiles fuel root rest c1
    | .raise e => .raise e
    | .diverge => .diverge

/-- Models `FileCacheLinkedList.init_cache`, with the result of
`os.walk(self._watch.path)` supplied as a list of
`(root, filenames)` pairs. -/
def initCache (fuel : Nat) (walk : List (String × List String)) (c : Cache) : PyResult Cache :=
  match walk with
  | [] => .ok c
  | (root, names) :: rest =>
    match initCacheFiles fuel root names c with
    | .ok c1 => initCache fuel rest c1
    | .raise e => .raise e
    | .diverge => .diverge

/-! ## The reconciler (models `FileCacheManager` event processing) -/

/-- The filesystem event variants dispatched to the reconciler
(models the `events.py` classes: event type, source path, directory
flag; moved events carry a destination path). -/
inductive FsEvent : Type
  | fileCreated (srcPath : String)
  | dirCreated (srcPath : String)
  | fileDeleted (srcPath : String)
  | dirDeleted (srcPath : String)
  | fileMoved (srcPath destPath : String)
  | dirMoved (srcPath destPath : String)
  deriving Repr, DecidableEq

/-- Models `FileCacheManager._process_created_event`: only file creations
act; query the cache by exact path and insert
`new_file_context(create_path)` only when the query came back empty. -/
def processCreatedEvent (fuel : Nat) (c : Cache) (e : FsEvent) : PyResult Cache :=
  match e with
  | .dirCreated _ => .ok c
  | .fileCreated sp =>
    match queryByPath fuel c (some sp) false none with
    | .raise er => .raise er
    | .diverge => .diverge
    | .ok res =>
      if res.length = 0 then
        match newFileContext sp with
        | some fcd => insertContext fuel c fcd
        | none => insert fuel c none
      else .ok c
  | _ => .raise (.typeError "MSDFileEventHandler.on_created: event should be FileCreatedEvent or DirCreatedEvent object")

/-- Delete every node of the materialised query result in order (the
`for fcont in res: ... delete(fcont)` loop; the collected references are
never `None`). -/
def deleteMatches : List Nat → Cache → PyResult Cache
  | [], c => .ok c
  | i :: rest, c =>
    match delete c (some i) with
    | .ok c1 => deleteMatches rest c1
    | .raise e => .raise e
    | .diverge => .diverge

/-- Models `FileCacheManager._process_deleted_event`: for a directory
deletion, query by the pattern `re.compile("^" + delete_path)` — without
passing `file_path`, which therefore keeps its `None` default — and delete
every match; for a file deletion, query by exact path and delete the
matches. -/
def processDeletedEvent (fuel : Nat) (c : Cache) (e : FsEvent) : PyResult Cache :=
  match e with
  | .dirDeleted sp =>
    match queryByPath fuel c none true
        (some { anchored := true, lit := sp, ignoreCase := false }) with
    | .raise er => .raise er
    | .diverge => .diverge
    | .ok res => deleteMatches res c
  | .fileDeleted sp =>
    match queryByPath fuel c (some sp) false none with
    | .raise er => .raise er
    | .diverge => .diverge
    | .ok res => deleteMatches res c
  | _ => .raise (.typeError "MSDFileEventHandler.on_deleted: event should be FileDeletedEvent or DirDeletedEvent object")

/-! ## The deduplicating queue (models `SkipRepeatsQueue`)

Items are generic; Python object identity is modelled by tagging each
enqueued item with a fresh allocation id, so that the structural
comparison of `_put` (`item != self._last_item`) and the identity
comparison of `_get` (`item is self._last_item`) stay distinguishable.
The unbounded queue never blocks a put, matching the default `maxsize=0`
used by `EventQueue()`. -/

structure SQState (α : Type) where
  items : List (Nat × α)
  lastItem : Option (Nat × α)
  unfinished : Int
  nextId : Nat
  deriving Repr, DecidableEq

/-- Models `Queue.put` with the overridden `_put`: when `_last_item` is
`None` or the item is structurally different from it, enqueue the item and
track it; otherwise decrement `unfinished_tasks` (undoing in advance the
increment that `Queue.put` performs unconditionally right after `_put`). -/
def sqPut {α : Type} [DecidableEq α] (s : SQState α) (x : α) : SQState α :=
  let s1 :=
    match s.lastItem with
    | none =>
      { s with items := s.items ++ [(s.nextId, x)],
               lastItem := some (s.nextId, x), nextId := s.nextId + 1 }
    | some li =>
      if x ≠ li.2 then
        { s with items := s.items ++ [(s.nextId, x)],
                 lastItem := some (s.nextId, x), nextId := s.nextId + 1 }
      else { s with unfinished := s.unfinished - 1 }
  { s1 with unfinished := s1.unfinished + 1 }

/-- Models `Queue.get` with the overridden `_get`: pop the front item and,
if it is (by identity) the tracked `_last_item`, clear the tracking.
Returns `none` on an empty queue, where the Python call would block. -/
def sqGet {α : Type} (s : SQState α) : Option (α × SQState α) :=
  match s.items with
  | [] => none
  | (i, v) :: rest =>
    let last1 :=
      match s.lastItem with
      | some li => if i = li.1 then none else some li
      | none => none
    some (v, { s with items := rest, lastItem := last1 })

/-! ## The watch registry (models `ObservedWatch` and
`BaseObserver.schedule`)

Dicts are insertion ordered association lists with distinct keys, sets are
duplicate free lists; emitter objects are modelled by allocation ids drawn
from a counter, and starting an emitter thread records its id in
`started`. -/

/-- Models `ObservedWatch`: equality and hashing by the
`(path, is_recursive)` key. -/
structure Watch where
  path : String
  recursive : Bool
  deriving Repr, DecidableEq

/-- Dict lookup keyed by `Watch` equality. -/
def wFind {β : Type} : List (Watch × β) → Watch → Option β
  | [], _ => none
  | (k, x) :: rest, w => if k = w then some x else wFind rest w

/-- Dict assignment: overwrite in place when the key exists, append
otherwise. -/
def wSet {β : Type} : List (Watch × β) → Watch → β → List (Watch × β)
  | [], w, x => [(w, x)]
  | (k, y) :: rest, w, x => if k = w then (w, x) :: rest else (k, y) :: wSet rest w x

structure ObserverState (H : Type) where
  watches : List Watch
  handlers : List (Watch × List H)
  emitterForWatch : List (Watch × Nat)
  emitters : List Nat
  started : List Nat
  nextEmitterId : Nat
  alive : Bool
  deriving Repr, DecidableEq

/-- Models `BaseObserver._add_handler_for_watch`: create the handler set
for the watch when missing, then add the handler to it. -/
def addHandlerForWatch {H : Type} [DecidableEq H] (s : ObserverState H) (h : H) (w : Watch) :
    ObserverState H :=
  let hs0 :=
    match wFind s.handlers w with
    | none => []
    | some hs => hs
  { s with handlers := wSet s.handlers w (if h ∈ hs0 then hs0 else hs0 ++ [h]) }

/-- Models `BaseObserver.schedule`: build the watch from
`(path, recursive)`, register the handler for it, create (and, when the
observer thread is alive, start) an emitter only when
`_emitter_for_watch.get(watch)` is `None`, and record the watch. -/
def schedule {H : Type} [DecidableEq H] (s : ObserverState H) (h : H) (path : String)
    (recursive : Bool) : ObserverState H × Watch :=
  let w : Watch := { path := path, recursive := recursive }
  let s1 := addHandlerForWatch s h w
  let s2 :=
    match wFind s1.emitterForWatch w with
    | some _ => s1
    | none =>
      let eid := s1.nextEmitterId
      let s1a := { s1 with nextEmitterId := eid + 1,
                           started := if s1.alive then s1.started ++ [eid] else s1.started }
      { s1a with emitterForWatch := wSet s1a.emitterForWatch w eid,
                 emitters := s1a.emitters ++ [eid] }
  ({ s2 with watches := if w ∈ s2.watches then s2.watches else s2.watches ++ [w] }, w)

/-! ## Small result helpers and concrete fixtures used by the theorems -/

/-- Did the run finish normally? -/
def PyResult.isOk {α : Type} : PyResult α → Bool
  | .ok _ => true
  | _ => false

/-- Map over a normal result. -/
def PyResult.map {α β : Type} (f : α → β) : PyResult α → PyResult β
  | .ok a => .ok (f a)
  | .raise e => .raise e
  | .diverge => .diverge

/-- A conforming MSD path (timestamp 2023-04-27 02:10:00, device 103502). -/
def pathA : String := "C:/w/TRG_103502_20230427_021000.msd"

/-- A second conforming MSD path, one minute later. -/
def pathB : String := "C:/w/TRG_103502_20230427_021100.msd"

/-- The record the validator produces for `pathA`. -/
def recA : FC := (newFileContext pathA).getD default

/-- The record the validator produces for `pathB`. -/
def recB : FC := (newFileContext pathB).getD default

/-- A cache state holding two records that share the ordering key
(timestamp 100): head(0) → a(2) → b(3) → tail(1), with the secondary index
holding the single first-occurrence entry for the key, pointing at a. -/
def cDup : Cache :=
  { nodes := [ { absPath := "", ts := none, sect := none, prev := none, next := some 2 },
               { absPath := "", ts := none, sect := none, prev := some 3, next := none },
               { absPath := "C:/w/x.msd", ts := some 100, sect := some "1", prev := some 0, next := some 3 },
               { absPath := "C:/w/y.msd", ts := some 100, sect := some "2", prev := some 2, next := some 1 } ],
    headId := 0, tailId := 1,
    kvStore := [(.str (formatKey 100), 2)] }

/-- The state `delete` leaves behind when given the first record of
`cDup`: b is the only record left, and the index is empty. -/
def cDupAfter : Cache :=
  { nodes := [ { absPath := "", ts := none, sect := none, prev := none, next := some 3 },
               { absPath := "", ts := none, sect := none, prev := some 3, next := none },
               { absPath := "C:/w/x.msd", ts := some 100, sect := some "1", prev := none, next := none },
               { absPath := "C:/w/y.msd", ts := some 100, sect := some "2", prev := some 0, next := some 1 } ],
    headId := 0, tailId := 1,
    kvStore := [] }

/-- A cache state holding two records with distinct keys (100 and 200),
head(0) → x(2) → y(3) → tail(1), plus a freshly validated, not yet linked
record z(4); used to run `replace` on the second record. -/
def cTwo : Cache :=
  { nodes := [ { absPath := "", ts := none, sect := none, prev := none, next := some 2 },
               { absPath := "", ts := none, sect := none, prev := some 3, next := none },
               { absPath := "C:/w/x.msd", ts := some 100, sect := some "1", prev := some 0, next := some 3 },
               { absPath := "C:/w/y.msd", ts := some 200, sect := some "2", prev := some 2, next := some 1 },
               { absPath := "C:/w/z.msd", ts := some 300, sect := some "3", prev := none, next := none } ],
    headId := 0, tailId := 1,
    kvStore := [(.str (formatKey 100), 2), (.str (formatKey 200), 3)] }

/-- A cache state holding one record x(2) — head(0) → x(2) → tail(1) —
plus a freshly validated, not yet linked record y(3); used to run
`replace` on the first (and only) record. -/
def cOnePlus : Cache :=
  { nodes := [ { absPath := "", ts := none, sect := none, prev := none, next := some 2 },
               { absPath := "", ts := none, sect := none, prev := some 2, next := none },
               { absPath := "C:/w/x.msd", ts := some 100, sect := some "1", prev := some 0, next := some 1 },
               { absPath := "C:/w/y.msd", ts := some 300, sect := some "3", prev := none, next := none } ],
    headId := 0, tailId := 1,
    kvStore := [(.str (formatKey 100), 2)] }

/-- A cache state with two records lying under the directory `C:/w/sub`:
head(0) → u(2) → v(3) → tail(1). -/
def cSub : Cache :=
  { nodes := [ { absPath := "", ts := none, sect := none, prev := none, next := some 2 },
               { absPath := "", ts := none, sect := none, prev := some 3, next := none },
               { absPath := "C:/w/sub/TRG_1_20230427_021000.msd", ts := some 100, sect := some "1",
                 prev := some 0, next := some 3 },
               { absPath := "C:/w/sub/TRG_1_20230427_021100.msd", ts := some 160, sect := some "1",
                 prev := some 2, next := some 1 } ],
    headId := 0, tailId := 1,
    kvStore := [(.str (formatKey 100), 2), (.str (formatKey 160), 3)] }

/-- A cache state holding the single record `C:/A/F.msd`:
head(0) → r(2) → tail(1). -/
def cMixedCase : Cache :=
  { nodes := [ { absPath := "", ts := none, sect := none, prev := none, next := some 2 },
               { absPath := "", ts := none, sect := none, prev := some 2, next := none },
               { absPath := "C:/A/F.msd", ts := some 100, sect := some "1", prev := some 0, next := some 1 } ],
    headId := 0, tailId := 1,
    kvStore := [(.str (formatKey 100), 2)] }

/-- The compiled form of the anchored literal pattern `^c:/a`, compiled
without flags (as `re.compile("^" + path)` does). -/
def patLowerA : RePattern := { anchored := true, lit := "c:/a", ignoreCase := false }

/-- The matching relation the spec describes for pattern mode: the
supplied pattern matched against the absolute path case-insensitively
(from the start of the path). -/
def specPatternMatches (p : RePattern) (s : String) : Bool :=
  RePattern.matchAt { p with ignoreCase := true } s 0

/-- The cache state that processing one `Created` event for a fresh valid
path `p` (validated to timestamp `t` and section `sec`) is expected to
build from the empty cache: the single record linked between the
sentinels, with one index entry for its key. -/
def singletonCache (p : String) (t : Int) (sec : String) : Cache :=
  { nodes := [ { absPath := "", ts := none, sect := none, prev := none, next := some 2 },
               { absPath := "", ts := none, sect := none, prev := some 2, next := none },
               { absPath := p, ts := some t, sect := some sec, prev := some 0, next := some 1 } ],
    headId := 0, tailId := 1,
    kvStore := [(.str (formatKey t), 2)] }

/-- A deduplicating-queue state tracking the enqueued item `5` (allocation
id 0), still in the queue. -/
def sqTracked : SQState Nat :=
  { items := [(0, 5)], lastItem := some (0, 5), unfinished := 1, nextId := 1 }

/-- A fresh, empty deduplicating-queue state. -/
def sqEmpty : SQState Nat :=
  { items := [], lastItem := none, unfinished := 0, nextId := 0 }

/-- A fresh observer registry (no watches, handlers or emitters), with the
observer thread alive. -/
def obsEmpty : ObserverState Nat :=
  { watches := [], handlers := [], emitterForWatch := [], emitters := [],
    started := [], nextEmitterId := 0, alive := true }

/-! ## Helper lemmas -/

theorem getFC_updFC_self (c : Cache) (i : Nat) (g : FC → FC) (h : i < c.nodes.length) :
    (c.updFC i g).getFC i = g (c.getFC i) := by
  simp [Cache.updFC, Cache.setFC, Cache.getFC, List.getD, List.getElem?_set_self',
    List.getElem?_eq_getElem h]

theorem getFC_updFC_ne (c : Cache) (i j : Nat) (g : FC → FC) (h : j ≠ i) :
    (c.updFC j g).getFC i = c.getFC i := by
  simp [Cache.updFC, Cache.setFC, Cache.getFC, List.getD, List.getElem?_set_ne h]

theorem length_updFC (c : Cache) (i : Nat) (g : FC → FC) :
    (c.updFC i g).nodes.length = c.nodes.length := by
  simp [Cache.updFC, Cache.setFC]

theorem kvStore_updFC (c : Cache) (i : Nat) (g : FC → FC) :
    (c.updFC i g).kvStore = c.kvStore := rfl

/-! ## C1 — ordering of insert sequences

The source compares `file_context.compare_key(ptr.key)` inside the scan
loop of `insert` (file_cache.py line 210), but `FileContextMSD.key` is the
`strftime` string of the timestamp while `compare_key` raises `TypeError`
for any argument that is not a `datetime` (lines 84-86).  So the very
first key comparison — i.e. any insert into a cache already holding a
record — raises; sorted insertion is unreachable. -/

/-- C1.  Inserting a first valid record into the empty cache succeeds and
the linked sequence holds exactly that record; inserting a second valid
record then raises `TypeError` from `compare_key`, because the loop hands
it `ptr.key`, a formatted string, instead of a datetime.  (Claim C1 states
every insert sequence succeeds with a sorted result; the code refutes it
at the second insert.) -/
theorem insert_second_record_raises_type_error :
    (newFileContext pathA).isSome = true ∧
    (newFileContext pathB).isSome = true ∧
    (insertContext 6 mkCache recA).map (fun c => traverse 6 c) = .ok (.ok [2]) ∧
    (insertContext 6 mkCache recA).bind (fun c => insertContext 6 c recB)
      = .raise (.typeError "the comparison type must be datetime") := by
  refine ⟨rfl, rfl, rfl, rfl⟩

/-! ## C4 — clear_cache

`clear_cache` (file_cache.py lines 176-183) deletes the node `ptr` points
at and only afterwards reads `ptr.next` — which `delete` has just set to
`None`.  The loop guard `ptr is not self._tail` is `True` for `None`, so
the next iteration calls `delete(None)`, which raises `ValueError`. -/

/-- C4.  On the empty cache `clear_cache` terminates and leaves the two
sentinels; on a cache holding a single record it raises `ValueError`
(from `delete(None)`), refuting the claim that `clearCache` terminates
without error for every cache state. -/
theorem clear_cache_raises_on_nonempty_cache :
    clearCache 6 mkCache = .ok mkCache ∧
    (insertContext 6 mkCache recA).map (fun c => clearCache 6 c)
      = .ok (.raise (.valueError "FileCache.insert: file_context should not be None.")) := by
  refine ⟨rfl, rfl⟩

/-! ## C5 — directory deletion cascade

`_process_deleted_event` (file_manager.py line 81) queries the cache with
`query_by_path(regex=True, re_pattern=re.compile("^" + delete_path))`,
leaving `file_path` at its default `None`; `query_by_path` immediately
calls `os.path.isabs(file_path)` (file_cache.py line 273), which raises
`TypeError` on `None`.  No record is ever deleted. -/

/-- C5.  With two tracked records lying under the directory `C:/w/sub`,
handling `Deleted{isDir=true}` for that directory raises `TypeError`
instead of deleting the two records, refuting the claim that the
reconciler removes all matching records and raises no error. -/
theorem dir_deleted_event_raises_type_error :
    (strBeginsWith (cSub.getFC 2).absPath "C:/w/sub/") = true ∧
    (strBeginsWith (cSub.getFC 3).absPath "C:/w/sub/") = true ∧
    processDeletedEvent 8 cSub (.dirDeleted "C:/w/sub")
      = .raise (.typeError "expected str, bytes or os.PathLike object, not NoneType") := by
  refine ⟨rfl, rfl, rfl⟩

/-! ## C6 — silent exclusion of non-conforming filenames

`new_file_context` returns `None` for a file whose name does not validate
(file_cache.py lines 93-100), and `init_cache` (lines 167-174) passes
that `None` straight into `insert`, whose first check raises
`ValueError`.  The walk is aborted, so later valid files are skipped. -/

/-- C6.  The validator produces no record for `notes.txt`, and a walk of a
directory containing it makes `init_cache` raise `ValueError` from
`insert(None)` — even when a conforming file follows — while the same walk
without the bad file succeeds; this refutes the silent-exclusion claim. -/
theorem init_cache_raises_on_unrecognized_filename :
    newFileContext "C:/w/notes.txt" = none ∧
    initCache 6 [("C:/w", ["notes.txt", "TRG_103502_20230427_021000.msd"])] mkCache
      = .raise (.valueError "FileCache.insert: file_context should not be None.") ∧
    (initCache 6 [("C:/w", ["TRG_103502_20230427_021000.msd"])] mkCache).isOk = true := by
  refine ⟨rfl, rfl, rfl⟩

/-! ## C9 — pattern-mode query

`query_by_path` calls `re_pattern.match(ptr.absolute_path, re.IGNORECASE)`
(file_cache.py line 285).  The second positional parameter of
`Pattern.match` is `pos`, not a flag set, and `re.IGNORECASE` has integer
value 2 — so the compiled pattern is applied case-SENSITIVELY starting at
character index 2 of the path, where the leading caret of a prefix
pattern can never hold.  The two `InvalidArgument` checks of the claim do
hold. -/

/-- C9.  The record `C:/A/F.msd` matches the pattern `^c:/a` up to letter
case (the relation the spec describes), yet pattern-mode `query_by_path`
returns no match for it, because the match is attempted at position
`re.IGNORECASE = 2` without case folding; the non-absolute-path and
missing-pattern errors of the claim do hold.  This refutes the
case-insensitive matching part of the claim. -/
theorem query_by_path_pattern_mode_not_case_insensitive :
    specPatternMatches patLowerA ((cMixedCase.getFC 2).absPath) = true ∧
    queryByPath 6 cMixedCase (some "C:/A/F.msd") true (some patLowerA) = .ok [] ∧
    queryByPath 6 cMixedCase (some "relative/p.msd") false none
      = .raise (.valueError "FileCache.query_by_path: arg file_path is not absolute path.") ∧
    queryByPath 6 cMixedCase (some "C:/A") true none
      = .raise (.valueError "FileCache.query_by_path: arg re_pattern should not be None.") := by
  refine ⟨rfl, rfl, rfl, rfl⟩

/-! ## C2 — replace

The scan loop of `replace` (file_cache.py lines 252-268) contains neither
a `break` nor a `ptr = ptr.next` advance.  If `old` is not the first
record, `ptr` stays on the first record forever; if `old` is the first
record, the second iteration re-enters the splice body after the node has
been unlinked and dereferences `ptr.prev`, which is `None`. -/

theorem replaceLoop_stuck : ∀ n, replaceLoop 3 4 n cTwo (some 2) = .diverge := by
  intro n
  induction n with
  | zero => rfl
  | succ k ih => simpa [replaceLoop, cTwo] using ih

/-- C2.  `replace(old, new)` with `old` the first (and only) record
splices `new` in but then crashes with `AttributeError` on its second
loop iteration; with `old` the second of two records it never terminates
(diverges for every fuel).  This refutes the claim that `replace`
terminates for every cache containing `old`. -/
theorem replace_crashes_or_never_terminates :
    replace 6 cOnePlus (some 2) (some 3)
      = .raise (.attributeError "NoneType object has no attribute next") ∧
    ∀ fuel, replace fuel cTwo (some 3) (some 4) = .diverge := by
  refine ⟨rfl, fun fuel => replaceLoop_stuck fuel⟩

/-! ## C3 — delete and the secondary index

`delete` (file_cache.py lines 223-241) ends in `_kv_store_pop_item`,
which removes the dict entry for the node key whenever one exists (lines
190-193) — it never re-points the entry to a later node with the same
key.  The general theorem below proves that behaviour for every cache
state; the counterexample exhibits a state with two records of equal key
where deleting the indexed first occurrence leaves the other record
behind with no index entry at all. -/

/-- C3 counterexample.  In `cDup` records 2 and 3 share the key of
timestamp 100 and the index holds the first-occurrence entry for record 2.
Deleting record 2 yields a cache whose linked sequence still contains
record 3 carrying that key, yet whose index has no entry for the key —
the claim said the entry would be re-pointed to record 3 and removed only
when the last record with the key is deleted. -/
theorem delete_does_not_repoint_index :
    delete cDup (some 2) = .ok cDupAfter ∧
    kvFind cDupAfter.kvStore (.str (formatKey 100)) = none ∧
    (cDupAfter.getFC 3).ts = some 100 ∧
    traverse 6 cDupAfter = .ok [3] := by
  refine ⟨rfl, rfl, rfl, rfl⟩

/-- C3 amended.  For every cache state and linked record, `delete`
succeeds and removes the index entry for the record key outright when one
exists (filtering it from the store), regardless of whether other records
with the same key remain; no re-pointing takes place. -/
theorem delete_erases_key_entry (c : Cache) (i p n : Nat) (t : Int)
    (h1 : (c.getFC i).prev = some p) (h2 : (c.getFC i).next = some n)
    (h3 : (c.getFC i).ts = some t) (hlen : i < c.nodes.length) :
    (delete c (some i)).map Cache.kvStore
      = .ok (c.kvStore.filter (fun e => e.1 ≠ .str (formatKey t))) := by
  by_cases hpi : p = i <;> by_cases hni : n = i <;>
    simp [delete, kvPop, fcKey, PyResult.map, getFC_updFC_self, getFC_updFC_ne,
      length_updFC, kvStore_updFC, h1, h2, h3, hlen, hpi, hni]

/-- C3 amended, witnessed at `cDup`: deleting the indexed first
occurrence of the duplicated key erases the index entry for that key. -/
theorem delete_erases_key_entry_witness :
    (cDup.getFC 2).prev = some 0 ∧ (cDup.getFC 2).next = some 3 ∧
    (cDup.getFC 2).ts = some 100 ∧ 2 < cDup.nodes.length ∧
    (delete cDup (some 2)).map Cache.kvStore
      = .ok (cDup.kvStore.filter (fun e => e.1 ≠ .str (formatKey 100))) :=
  ⟨rfl, rfl, rfl, by decide, delete_erases_key_entry cDup 2 0 3 100 rfl rfl rfl (by decide)⟩

/-! ## C7 — idempotent create

`_process_created_event` (file_manager.py lines 52-69) queries the cache
by exact path and inserts only when the query comes back empty, so a
duplicate `Created` notification for the same file performs no insert. -/

/-- C7.  For every absolute path `p` with a valid domain filename,
processing `Created{isDir=false}` for `p` on the empty cache builds the
one-record cache; its linked sequence holds exactly the one record, whose
absolute path is `p`; and processing the same event a second time finds
the path present and returns the cache unchanged (no insert).  Hence two
`Created` events for the same path yield exactly one cache record for
that path. -/
theorem created_event_idempotent (p : String) (t : Int) (sec : String)
    (hab : isabs p = true) (hv : verifyFileMSD p = some (t, sec)) :
    processCreatedEvent 4 mkCache (.fileCreated p) = .ok (singletonCache p t sec) ∧
    traverse 4 (singletonCache p t sec) = .ok [2] ∧
    ((singletonCache p t sec).getFC 2).absPath = p ∧
    processCreatedEvent 4 (singletonCache p t sec) (.fileCreated p)
      = .ok (singletonCache p t sec) := by
  refine ⟨?_, ?_, ?_, ?_⟩
  · simp [processCreatedEvent, queryByPath, hab, hv, queryLoop, newFileContext, insertContext,
      insert, insertLoop, mkCache, singletonCache, Cache.getFC, Cache.updFC, Cache.setFC,
      kvPush, fcKey, kvFind]
  · simp [traverse, traverseLoop, singletonCache, Cache.getFC]
  · simp [singletonCache, Cache.getFC]
  · simp [processCreatedEvent, queryByPath, hab, queryLoop, singletonCache, Cache.getFC]

/-- C7 witnessed at the conforming path `pathA`. -/
theorem created_event_idempotent_witness :
    isabs pathA = true ∧
    verifyFileMSD pathA = some (1682590200, "103502") ∧
    (processCreatedEvent 4 mkCache (.fileCreated pathA)
        = .ok (singletonCache pathA 1682590200 "103502") ∧
      traverse 4 (singletonCache pathA 1682590200 "103502") = .ok [2] ∧
      ((singletonCache pathA 1682590200 "103502").getFC 2).absPath = pathA ∧
      processCreatedEvent 4 (singletonCache pathA 1682590200 "103502") (.fileCreated pathA)
        = .ok (singletonCache pathA 1682590200 "103502")) :=
  ⟨rfl, rfl, created_event_idempotent pathA 1682590200 "103502" rfl rfl⟩

/-! ## C8 — the deduplicating queue

`SkipRepeatsQueue` (bricks.py lines 51-76): `_put` drops an item
structurally equal to `_last_item` and compensates the unconditional
`unfinished_tasks += 1` of `Queue.put` by decrementing it; `_get` clears
the tracking when the dequeued object *is* the tracked one. -/

/-- C8.  With `(j, v)` the tracked last-enqueued-not-yet-dequeued item, a
`put` of an item structurally equal to `v` leaves the queue state exactly
unchanged (nothing enqueued, pending-work count unchanged); when the
tracked item reaches the front, `get` delivers it and clears the
tracking, after which a `put` of an equal item is enqueued again; and
from a state with no tracked item, two consecutive `put`s of the same
item enqueue exactly one copy and increment the pending-work count
exactly once. -/
theorem skip_repeats_queue_dedup {α : Type} [DecidableEq α] (s : SQState α) (j : Nat) (v : α)
    (rest : List (Nat × α)) (s0 : SQState α) (x : α)
    (hlast : s.lastItem = some (j, v)) (h0 : s0.lastItem = none) :
    sqPut s v = s ∧
    (s.items = (j, v) :: rest →
      sqGet s = some (v, { s with items := rest, lastItem := none }) ∧
      (sqPut { s with items := rest, lastItem := none } v).items = rest ++ [(s.nextId, v)]) ∧
    (sqPut s0 x).items = s0.items ++ [(s0.nextId, x)] ∧
    (sqPut s0 x).unfinished = s0.unfinished + 1 ∧
    sqPut (sqPut s0 x) x = sqPut s0 x := by
  obtain ⟨items, last, unf, nid⟩ := s
  obtain ⟨items0, last0, unf0, nid0⟩ := s0
  simp only [SQState.mk.injEq] at *
  subst hlast h0
  refine ⟨?_, fun hitems => ⟨?_, ?_⟩, ?_, ?_, ?_⟩
  · simp [sqPut]
  · simp at hitems
    simp [sqGet, hitems]
  · simp [sqPut]
  · simp [sqPut]
  · simp [sqPut]
  · simp [sqPut]

/-- C8 witnessed on the queue of naturals tracking the enqueued item 5. -/
theorem skip_repeats_queue_dedup_witness :
    sqTracked.lastItem = some (0, 5) ∧
    sqEmpty.lastItem = none ∧
    (sqPut sqTracked 5 = sqTracked ∧
      (sqTracked.items = (0, 5) :: [] →
        sqGet sqTracked = some (5, { sqTracked with items := [], lastItem := none }) ∧
        (sqPut { sqTracked with items := [], lastItem := none } 5).items
          = [] ++ [(sqTracked.nextId, 5)]) ∧
      (sqPut sqEmpty 7).items = sqEmpty.items ++ [(sqEmpty.nextId, 7)] ∧
      (sqPut sqEmpty 7).unfinished = sqEmpty.unfinished + 1 ∧
      sqPut (sqPut sqEmpty 7) 7 = sqPut sqEmpty 7) :=
  ⟨rfl, rfl, skip_repeats_queue_dedup sqTracked 0 5 [] sqEmpty 7 rfl rfl⟩

/-! ## C10 — idempotent schedule

`BaseObserver.schedule` (observers.py lines 145-163) keys
`_emitter_for_watch` by `ObservedWatch`, whose equality and hash are the
`(path, is_recursive)` pair (bricks.py lines 36-45); an emitter is created
and started only when `_emitter_for_watch.get(watch)` is `None`. -/

theorem wFind_wSet_self {β : Type} (l : List (Watch × β)) (w : Watch) (x : β) :
    wFind (wSet l w x) w = some x := by
  induction l with
  | nil => simp [wSet, wFind]
  | cons a r ih =>
    obtain ⟨k, y⟩ := a
    by_cases h : k = w <;> simp [wSet, wFind, h, ih]

theorem wFind_wSet_ne {β : Type} (l : List (Watch × β)) (w w' : Watch) (x : β) (h : w' ≠ w) :
    wFind (wSet l w x) w' = wFind l w' := by
  induction l with
  | nil => simp [wSet, wFind, Ne.symm h]
  | cons a r ih =>
    obtain ⟨k, y⟩ := a
    by_cases hk : k = w
    · subst hk
      simp [wSet, wFind, Ne.symm h]
    · simp [wSet, wFind, hk, ih]

theorem handlers_addHandlerForWatch {H : Type} [DecidableEq H] (s : ObserverState H) (h : H)
    (w : Watch) :
    wFind (addHandlerForWatch s h w).handlers w
      = some (let hs0 := (wFind s.handlers w).getD [];
              if h ∈ hs0 then hs0 else hs0 ++ [h]) := by
  cases hf : wFind s.handlers w <;> simp [addHandlerForWatch, hf, wFind_wSet_self]

theorem handlers_schedule {H : Type} [DecidableEq H] (s : ObserverState H) (h : H)
    (path : String) (rec : Bool) :
    ((schedule s h path rec).1).handlers
      = (addHandlerForWatch s h { path := path, recursive := rec }).handlers := by
  simp only [schedule]
  rw [show (addHandlerForWatch s h { path := path, recursive := rec }).emitterForWatch
      = s.emitterForWatch from rfl]
  cases hf : wFind s.emitterForWatch { path := path, recursive := rec } <;> simp [hf]

theorem watches_schedule_mem {H : Type} [DecidableEq H] (s : ObserverState H) (h : H)
    (path : String) (rec : Bool) :
    ({ path := path, recursive := rec } : Watch) ∈ ((schedule s h path rec).1).watches := by
  simp only [schedule]
  rw [show (addHandlerForWatch s h { path := path, recursive := rec }).emitterForWatch
      = s.emitterForWatch from rfl]
  cases hf : wFind s.emitterForWatch { path := path, recursive := rec } <;>
    · simp only [hf]
      by_cases hm : ({ path := path, recursive := rec } : Watch) ∈ s.watches <;>
        simp [addHandlerForWatch, hm]

theorem emitterForWatch_schedule_isSome {H : Type} [DecidableEq H] (s : ObserverState H) (h : H)
    (path : String) (rec : Bool) :
    (wFind ((schedule s h path rec).1).emitterForWatch
      { path := path, recursive := rec }).isSome = true := by
  simp only [schedule]
  rw [show (addHandlerForWatch s h { path := path, recursive := rec }).emitterForWatch
      = s.emitterForWatch from rfl]
  cases hf : wFind s.emitterForWatch { path := path, recursive := rec } <;>
    simp [hf, addHandlerForWatch, wFind_wSet_self]

/-- C10.  A second `schedule` with the same path and recursive flag
returns the same `(path, recursive)` watch, leaves the emitter registry,
emitter set, started set and emitter allocation counter untouched (no
emitter is created or started), leaves the watch set unchanged, changes no
other watch's handler set, and only adds the given handler to the
existing handler set of that watch. -/
theorem schedule_reuses_existing_emitter {H : Type} [DecidableEq H] (s : ObserverState H)
    (h1 h2 : H) (path : String) (rec : Bool) (w' : Watch)
    (hne : w' ≠ { path := path, recursive := rec }) :
    (schedule (schedule s h1 path rec).1 h2 path rec).2 = { path := path, recursive := rec } ∧
    ((schedule (schedule s h1 path rec).1 h2 path rec).1).emitterForWatch
      = ((schedule s h1 path rec).1).emitterForWatch ∧
    ((schedule (schedule s h1 path rec).1 h2 path rec).1).emitters
      = ((schedule s h1 path rec).1).emitters ∧
    ((schedule (schedule s h1 path rec).1 h2 path rec).1).started
      = ((schedule s h1 path rec).1).started ∧
    ((schedule (schedule s h1 path rec).1 h2 path rec).1).nextEmitterId
      = ((schedule s h1 path rec).1).nextEmitterId ∧
    ((schedule (schedule s h1 path rec).1 h2 path rec).1).watches
      = ((schedule s h1 path rec).1).watches ∧
    wFind ((schedule (schedule s h1 path rec).1 h2 path rec).1).handlers w'
      = wFind ((schedule s h1 path rec).1).handlers w' ∧
    (wFind ((schedule s h1 path rec).1).handlers { path := path, recursive := rec }).isSome
      = true ∧
    wFind ((schedule (schedule s h1 path rec).1 h2 path rec).1).handlers
        { path := path, recursive := rec }
      = some (let hs := (wFind ((schedule s h1 path rec).1).handlers
                { path := path, recursive := rec }).getD [];
              if h2 ∈ hs then hs else hs ++ [h2]) := by
  have hisme := emitterForWatch_schedule_isSome s h1 path rec
  have hmem := watches_schedule_mem s h1 path rec
  have hsome1 : (wFind ((schedule s h1 path rec).1).handlers
      { path := path, recursive := rec }).isSome = true := by
    rw [handlers_schedule, handlers_addHandlerForWatch]
    simp
  obtain ⟨e, he⟩ := Option.isSome_iff_exists.mp hisme
  generalize hg : (schedule s h1 path rec).1 = s1 at he hmem hsome1 ⊢
  have hs2 : (schedule s1 h2 path rec).1
      = addHandlerForWatch s1 h2 { path := path, recursive := rec } := by
    simp only [schedule]
    rw [show (addHandlerForWatch s1 h2 { path := path, recursive := rec }).emitterForWatch
        = s1.emitterForWatch from rfl, he]
    rw [show (addHandlerForWatch s1 h2 { path := path, recursive := rec }).watches
        = s1.watches from rfl]
    rw [if_pos hmem]
    simp [addHandlerForWatch]
  refine ⟨rfl, ?_, ?_, ?_, ?_, ?_, ?_, hsome1, ?_⟩
  · rw [hs2]; rfl
  · rw [hs2]; rfl
  · rw [hs2]; rfl
  · rw [hs2]; rfl
  · rw [hs2]; rfl
  · rw [hs2]
    exact (by simp [addHandlerForWatch, wFind_wSet_ne _ _ w' _ hne])
  · rw [hs2, handlers_addHandlerForWatch]

/-- C10 witnessed on the fresh registry, scheduling handlers 1 and 2 for
the recursive watch on `C:/w`. -/
theorem schedule_reuses_existing_emitter_witness :
    ({ path := "C:/x", recursive := false } : Watch) ≠ { path := "C:/w", recursive := true } ∧
    ((schedule (schedule obsEmpty 1 "C:/w" true).1 2 "C:/w" true).2
        = { path := "C:/w", recursive := true } ∧
      ((schedule (schedule obsEmpty 1 "C:/w" true).1 2 "C:/w" true).1).emitterForWatch
        = ((schedule obsEmpty 1 "C:/w" true).1).emitterForWatch ∧
      ((schedule (schedule obsEmpty 1 "C:/w" true).1 2 "C:/w" true).1).emitters
        = ((schedule obsEmpty 1 "C:/w" true).1).emitters ∧
      ((schedule (schedule obsEmpty 1 "C:/w" true).1 2 "C:/w" true).1).started
        = ((schedule obsEmpty 1 "C:/w" true).1).started ∧
      ((schedule (schedule obsEmpty 1 "C:/w" true).1 2 "C:/w" true).1).nextEmitterId
        = ((schedule obsEmpty 1 "C:/w" true).1).nextEmitterId ∧
      ((schedule (schedule obsEmpty 1 "C:/w" true).1 2 "C:/w" true).1).watches
        = ((schedule obsEmpty 1 "C:/w" true).1).watches ∧
      wFind ((schedule (schedule obsEmpty 1 "C:/w" true).1 2 "C:/w" true).1).handlers
          { path := "C:/x", recursive := false }
        = wFind ((schedule obsEmpty 1 "C:/w" true).1).handlers
          { path := "C:/x", recursive := false } ∧
      (wFind ((schedule obsEmpty 1 "C:/w" true).1).handlers
          { path := "C:/w", recursive := true }).isSome = true ∧
      wFind ((schedule (schedule obsEmpty 1 "C:/w" true).1 2 "C:/w" true).1).handlers
          { path := "C:/w", recursive := true }
        = some (let hs := (wFind ((schedule obsEmpty 1 "C:/w" true).1).handlers
                  { path := "C:/w", recursive := true }).getD [];
                if 2 ∈ hs then hs else hs ++ [2])) :=
  ⟨by decide, schedule_reuses_existing_emitter obsEmpty 1 2 "C:/w" true
    { path := "C:/x", recursive := false } (by decide)⟩

end WaveSpec
